import Mathlib

/-!
Verification of the training/validation/checkpointing control loop of
`src/engines/torch_executor.py` (class `TorchExecutor`).

The Python source is shallowly embedded: floating-point metric values are
modelled as rationals (only order comparisons and exact arithmetic on them
matter to the control flow), tensors/optimizers are opaque, and the effects of
each loop iteration (optimizer steps, log blocks, checkpoint writes, process
exit) are recorded as an explicit event trace.
-/

set_option linter.unusedVariables false

namespace TorchExecutor

/-- Substring test, embedding Python's `needle in haystack` on strings. -/
def strContains (haystack needle : String) : Bool :=
  decide (List.IsInfix needle.data haystack.data)

/-- A fragment of Python's value universe, enough to model the asserted
expression in `train` (line 113 of the source) and Python truthiness. -/
inductive PyVal where
  | none_ : PyVal
  | bool : Bool → PyVal
  | int : Int → PyVal
  | str : String → PyVal
  | tuple : List PyVal → PyVal
  deriving Repr

/-- Python truthiness: `None` is falsy, `bool` is itself, an `int` is truthy
iff nonzero, a `str` iff nonempty, a `tuple` iff nonempty. -/
def pyTruthy : PyVal → Bool
  | .none_ => false
  | .bool b => b
  | .int n => n != 0
  | .str s => s.length != 0
  | .tuple xs => xs.length != 0

/-- Python truthiness of an optional integer argument (`None` or an `int`),
as tested by `if num_epoch:` / `if num_max_steps:` in `train`. -/
def pyTruthyOptInt : Option Int → Bool
  | none => false
  | some n => n != 0

/-- The expression asserted at the top of `train`:
`assert (num_max_steps is not None and num_epoch is not None, "Use steps or epoch at a time")`.
The parenthesised form is a two-element tuple `(condition, message)`, not a
condition with a message. -/
def trainAssertExpr (num_max_steps num_epoch : Option Int) : PyVal :=
  .tuple [.bool (num_max_steps.isSome && num_epoch.isSome),
          .str "Use steps or epoch at a time"]

/-- Errors a modelled routine can raise. -/
inductive PyErr where
  | zeroDivisionError : PyErr
  | valueError : String → PyErr
  | fileNotFoundError : String → PyErr
  deriving Repr, DecidableEq

/-! ## MetricAccumulator -/

/-- Modelled from the spec: the `Averager` class is imported from
`dataset.scene_text_recognition.utils`, which is not under `src/`.  Per the
spec (section 4.1) it keeps a running sum and count; `add` folds a scalar in
and `val` returns sum/count. -/
structure Averager where
  sum : ℚ
  count : ℕ
  deriving Repr, DecidableEq

def Averager.init : Averager := ⟨0, 0⟩

def Averager.add (a : Averager) (v : ℚ) : Averager := ⟨a.sum + v, a.count + 1⟩

def Averager.val (a : Averager) : ℚ := a.sum / (a.count : ℚ)

/-! ## Evaluator (`validation`, lines 72-100) -/

/-- One batch of the validation set together with the values the opaque model
collaborator returns for it: `size` is `image_tensors.size(0)`, `nCorrect` and
`normED` come from `get_accuracy`, `cost` and `forwardTime` from
`get_predictions`, and `preds`/`labels` are the decoded strings. -/
structure VBatch where
  size : ℕ
  nCorrect : ℕ
  normED : ℚ
  cost : ℚ
  forwardTime : ℚ
  preds : List String
  labels : List String
  deriving Repr, DecidableEq

/-- The tuple returned by `validation`. -/
structure VResult where
  validLoss : ℚ
  accuracy : ℚ
  normED : ℚ
  lastPreds : List String
  lastLabels : List String
  inferTime : ℚ
  lengthOfData : ℕ
  deriving Repr, DecidableEq

/-- Embedding of `validation` (lines 72-100): accumulate per-batch counts and
sums over the evaluation loader, then compute
`accuracy = n_correct / float(length_of_data) * 100`.  When the accumulated
`length_of_data` is zero this division raises an unguarded
`ZeroDivisionError` in Python, which the model makes explicit. -/
def validation (batches : List VBatch) : Except PyErr VResult :=
  let length_of_data : ℕ := (batches.map (·.size)).sum
  let n_correct := (batches.map (·.nCorrect)).sum
  let norm_ED := (batches.map (·.normED)).sum
  let infer_time := (batches.map (·.forwardTime)).sum
  let valid_loss_avg := batches.foldl (fun a b => a.add b.cost) Averager.init
  if length_of_data = 0 then
    -- line 98: `n_correct / float(length_of_data) * 100` with a zero divisor
    .error .zeroDivisionError
  else
    -- `preds_str` / `labels` hold the values from the last loop iteration;
    -- the list is nonempty here, so the `getD` default is never used
    let last := batches.getLast?.getD ⟨0, 0, 0, 0, 0, [], []⟩
    .ok { validLoss := valid_loss_avg.val
          accuracy := (n_correct : ℚ) / (length_of_data : ℚ) * 100
          normED := norm_ED
          lastPreds := last.preds
          lastLabels := last.labels
          inferTime := infer_time
          lengthOfData := length_of_data }

/-! ## Weight initialization (`__init__`, lines 50-63) -/

/-- Outcome of the per-parameter initialization pass. -/
inductive InitResult where
  | untouched : InitResult
  | constFill : ℚ → InitResult
  | kaimingNormal : InitResult
  | frameworkDefault : InitResult
  deriving Repr, DecidableEq

/-- Whether `init.kaiming_normal_` raises for a parameter of the given number
of dimensions: fan-in cannot be computed for tensors with fewer than two
dimensions. -/
def kaimingRaises (ndim : ℕ) : Bool := ndim < 2

/-- Embedding of the weight-initialization loop body (lines 51-63) for one
named parameter: skip names containing `localization_fc2`; constant-fill 0.0
for names containing `bias`; Kaiming-normal for names containing `weight`,
falling back to `param.data.fill_(1)` when that raises (the `except` branch
refills only when the name contains `weight`); any other name is left at its
framework default. -/
def initParam (name : String) (ndim : ℕ) : InitResult :=
  if strContains name "localization_fc2" then
    .untouched
  else if strContains name "bias" then
    .constFill 0
  else if strContains name "weight" then
    if kaimingRaises ndim then .constFill 1 else .kaimingNormal
  else
    .frameworkDefault

/-! ## CheckpointStore (`load_model`, lines 102-110) -/

/-- How stored data is read back: `load_state_dict(torch.load(...))` loads
parameter state only, as opposed to deserializing a full model object. -/
inductive LoadKind where
  | stateDictOnly : LoadKind
  | fullObject : LoadKind
  deriving Repr, DecidableEq

/-- Result of `load_model`: the base model is always wrapped in
`torch.nn.DataParallel(...).to(device)`; `loaded` records which path's
contents were deserialized into it, if any. -/
structure LoadResult where
  parallelWrapped : Bool
  onDevice : Bool
  loaded : Option (String × LoadKind)
  deriving Repr, DecidableEq

/-- Embedding of `load_model` (lines 102-110).  The filesystem is a list of
existing paths.  If `path` exists, parameter state is loaded via
`model.load_state_dict(torch.load(self._stored_model))` — note the load reads
from the configured `stored_model` path, not from `path`; `torch.load` raises
if that configured path is itself absent.  If `path` does not exist the
freshly wrapped model is returned with no error. -/
def load_model (fs : List String) (stored_model : String) (path : String) :
    Except PyErr LoadResult :=
  if path ∈ fs then
    if stored_model ∈ fs then
      .ok { parallelWrapped := true, onDevice := true
            loaded := some (stored_model, .stateDictOnly) }
    else
      .error (.fileNotFoundError stored_model)
  else
    .ok { parallelWrapped := true, onDevice := true, loaded := none }

/-! ## Best-checkpoint tracking (`train`, lines 140-141 and 191-197) -/

/-- The best-metric bookkeeping carried across validation rounds, initialized
at lines 140-141 (`best_accuracy = -1`, `best_norm_ed = 1e+6`). -/
structure BestState where
  best_accuracy : ℚ
  best_norm_ed : ℚ
  deriving Repr, DecidableEq

def initBest : BestState := ⟨-1, 1000000⟩

/-- Embedding of the best-tracking block of one validation round
(lines 191-197): update `best_accuracy` and store `best_accuracy.pth` when
the current accuracy strictly exceeds it; update `best_norm_ed` and store
`best_norm_ed.pth` when the current normalized edit distance is strictly
below it.  Returns the new state and the checkpoint file names written. -/
def validationRound (s : BestState) (current_accuracy current_norm_ed : ℚ) :
    BestState × List String :=
  let s1 := if current_accuracy > s.best_accuracy then
              { s with best_accuracy := current_accuracy } else s
  let w1 := if current_accuracy > s.best_accuracy then ["best_accuracy.pth"] else []
  let s2 := if current_norm_ed < s1.best_norm_ed then
              { s1 with best_norm_ed := current_norm_ed } else s1
  let w2 := if current_norm_ed < s1.best_norm_ed then ["best_norm_ed.pth"] else []
  (s2, w1 ++ w2)

/-- The sequence of best states produced by a run of validation rounds,
starting from the loop's initial state. -/
def bestStates (rounds : List (ℚ × ℚ)) : List BestState :=
  rounds.scanl (fun s r => (validationRound s r.1 r.2).1) initBest

/-! ## The training loop (`train`, lines 112-212) -/

/-- Budget resolution at lines 124-132: `total_num_steps` starts at `-1`, is
set to `num_steps_per_epoch * num_epoch` when `num_epoch` is truthy, and then
to `num_max_steps` when `num_max_steps` is truthy. -/
def totalNumSteps (num_steps_per_epoch : Int)
    (num_max_steps num_epoch : Option Int) : Int :=
  let t : Int := -1
  let t := if pyTruthyOptInt num_epoch then num_steps_per_epoch * num_epoch.getD 0 else t
  if pyTruthyOptInt num_max_steps then num_max_steps.getD 0 else t

/-- Observable events of one `train` run. -/
inductive Event where
  | optimStep : Event
  | logBlock : ℕ → Event
  | storeFile : String → Event
  | exitLog : Event
  deriving Repr, DecidableEq

/-- How a run of `train` ends: falling out of the `while` loop and returning,
or `sys.exit()` from the early-exit branch. -/
inductive Outcome where
  | normalReturn : Outcome
  | processExit : Outcome
  deriving Repr, DecidableEq

/-- Constructor-supplied configuration used inside the loop. -/
structure TrainCfg where
  max_train_steps : ℕ
  validation_interval_steps : ℕ
  deriving Repr, DecidableEq

/-- Checkpoint file name of the periodic snapshot at line 205. -/
def iterFileName (n : ℕ) : String := "iter_" ++ toString n ++ ".pth"

/-- Events of one iteration of the `while` body (lines 144-205), at secondary
counter `i` with best-state `s`.  `metrics i` gives the
(accuracy, normalized-edit-distance) pair that the validation run at counter
`i` returns; metrics are inputs because the model/dataset collaborators are
opaque.  One optimizer step always happens; a validation log block and the
best-checkpoint writes happen when `i % validation_interval_steps == 0`; the
numbered snapshot `iter_<i+1>.pth` is written when `(i + 1) % 1e+5 == 0`
(Python float modulo, which agrees with integer modulo by 100000 at these
magnitudes).  The interval is assumed positive, as a zero interval makes the
Python modulo itself raise. -/
def iterEvents (cfg : TrainCfg) (metrics : ℕ → ℚ × ℚ) (i : ℕ) (s : BestState) :
    List Event × BestState :=
  let valEvents :=
    if i % cfg.validation_interval_steps = 0 then
      Event.logBlock i ::
        (validationRound s (metrics i).1 (metrics i).2).2.map Event.storeFile
    else []
  let s' :=
    if i % cfg.validation_interval_steps = 0 then
      (validationRound s (metrics i).1 (metrics i).2).1
    else s
  let iterSave :=
    if (i + 1) % 100000 = 0 then [Event.storeFile (iterFileName (i + 1))] else []
  (Event.optimStep :: (valEvents ++ iterSave), s')

/-- The validation-interval log block indices occurring in an event trace. -/
def logBlocks (evs : List Event) : List ℕ :=
  evs.filterMap (fun e => match e with | .logBlock j => some j | _ => none)

/-- The `while (current_step < total_num_steps)` loop (lines 143-212).
`current_step` and `i` start at 0 and advance in lockstep, so the loop guard
is equivalent to counting down `remaining = total_num_steps - current_step`;
`remaining = 0` means the exclusive guard fails and `train` returns.  After
the body of an iteration, `if i == max_train_steps:` logs completion and
calls `sys.exit()`. -/
def trainLoopAux (cfg : TrainCfg) (metrics : ℕ → ℚ × ℚ) :
    ℕ → ℕ → BestState → List Event × Outcome
  | 0, _, _ => ([], .normalReturn)
  | remaining + 1, i, s =>
    let evs := (iterEvents cfg metrics i s).1
    let s' := (iterEvents cfg metrics i s).2
    if i = cfg.max_train_steps then
      (evs ++ [Event.exitLog], .processExit)
    else
      let rest := trainLoopAux cfg metrics remaining (i + 1) s'
      (evs ++ rest.1, rest.2)

/-- Embedding of `train(num_max_steps, num_epoch)` (lines 112-212): the
assert at line 113 always passes (see `trainAssertExpr`), the model is loaded,
`num_steps_per_epoch = len(dataset) // batch_size`, the total budget is
resolved by `totalNumSteps`, and the loop runs from
`current_step = 0`, `i = 0` with the initial best state. -/
def train (cfg : TrainCfg) (metrics : ℕ → ℚ × ℚ)
    (num_samples batch_size : ℕ) (num_max_steps num_epoch : Option Int) :
    List Event × Outcome :=
  let num_steps_per_epoch : Int := (num_samples / batch_size : ℕ)
  let total := totalNumSteps num_steps_per_epoch num_max_steps num_epoch
  trainLoopAux cfg metrics total.toNat 0 initBest

/-! ## InferenceRunner (`predict_directory`, lines 214-234) -/

/-- One serving batch: the image identifiers yielded by `serving_set` and the
prediction strings the opaque model returns for the batch. -/
structure ServBatch where
  ids : List String
  preds : List String
  deriving Repr, DecidableEq

/-- The observable behaviour of a `predict_directory` call: lines printed to
standard output, files created or modified, and the Python return value. -/
structure PredictEffects where
  stdoutLines : List String
  filesWritten : List String
  retVal : PyVal
  deriving Repr

/-- Embedding of `predict_directory(in_path, out_path)` (lines 214-234): for
each serving batch print a separator block and one `f'{img_name}\t{pred}'`
line per `zip(image_path_list, preds_str)` pair.  Nothing is written to the
filesystem, the function body never reads `out_path`, and the function
returns `None`. -/
def predict_directory (batches : List ServBatch) (in_path out_path : String) :
    PredictEffects :=
  { stdoutLines :=
      batches.flatMap (fun b =>
        [String.mk (List.replicate 80 '-'),
         "image_path\tpredicted_labels",
         String.mk (List.replicate 80 '-')]
        ++ (b.ids.zip b.preds).map (fun p => p.1 ++ "\t" ++ p.2))
    filesWritten := []
    retVal := .none_ }

/-! ## Helper lemmas -/

/-- The numbered snapshot file name never collides with the best-accuracy
checkpoint file name. -/
theorem iterFileName_ne_best_accuracy (n : ℕ) :
    iterFileName n ≠ "best_accuracy.pth" := by
  intro h
  have hd := congrArg String.data h
  rw [iterFileName] at hd
  simp only [String.data_append] at hd
  have hh := congrArg List.head? hd
  simp at hh

/-- The numbered snapshot file name never collides with the
best-edit-distance checkpoint file name. -/
theorem iterFileName_ne_best_norm_ed (n : ℕ) :
    iterFileName n ≠ "best_norm_ed.pth" := by
  intro h
  have hd := congrArg String.data h
  rw [iterFileName] at hd
  simp only [String.data_append] at hd
  have hh := congrArg List.head? hd
  simp at hh

/-- One validation round never decreases the tracked best accuracy. -/
theorem validationRound_acc_mono (s : BestState) (acc ned : ℚ) :
    s.best_accuracy ≤ ((validationRound s acc ned).1).best_accuracy := by
  unfold validationRound
  dsimp only
  split_ifs <;> simp_all <;> linarith

/-- One validation round never increases the tracked best normalized edit
distance. -/
theorem validationRound_ned_mono (s : BestState) (acc ned : ℚ) :
    ((validationRound s acc ned).1).best_norm_ed ≤ s.best_norm_ed := by
  unfold validationRound
  dsimp only
  split_ifs <;> simp_all <;> linarith

/-- `best_accuracy.pth` is written by a round exactly when the round's
accuracy strictly exceeds the best seen so far. -/
theorem validationRound_acc_write_iff (s : BestState) (acc ned : ℚ) :
    "best_accuracy.pth" ∈ (validationRound s acc ned).2 ↔ s.best_accuracy < acc := by
  unfold validationRound
  dsimp only
  split_ifs <;> simp_all

/-- `best_norm_ed.pth` is written by a round exactly when the round's
normalized edit distance is strictly below the best seen so far. -/
theorem validationRound_ned_write_iff (s : BestState) (acc ned : ℚ) :
    "best_norm_ed.pth" ∈ (validationRound s acc ned).2 ↔ ned < s.best_norm_ed := by
  unfold validationRound
  dsimp only
  split_ifs <;> simp_all

/-- Every file a validation round writes is one of the two best-metric
checkpoints. -/
theorem validationRound_writes_subset (s : BestState) (acc ned : ℚ) (x : String) :
    x ∈ (validationRound s acc ned).2 →
    x = "best_accuracy.pth" ∨ x = "best_norm_ed.pth" := by
  unfold validationRound
  dsimp only
  split_ifs <;> simp_all

/-- A validation round writes each of the two checkpoint files at most
once. -/
theorem validationRound_writes_count (s : BestState) (acc ned : ℚ) (x : String) :
    (validationRound s acc ned).2.count x ≤ 1 := by
  have hnd : (validationRound s acc ned).2.Nodup := by
    unfold validationRound
    dsimp only
    split_ifs <;> simp
  exact List.nodup_iff_count_le_one.mp hnd x

/-- A step-over-step relation holds along every `scanl` whose step function
satisfies it pointwise. -/
theorem chain'_scanl {α β : Type} (R : β → β → Prop) (f : β → α → β)
    (hf : ∀ s r, R s (f s r)) :
    ∀ (l : List α) (s0 : β), List.Chain' R (List.scanl f s0 l)
  | [], s0 => by simp [List.scanl_nil]
  | r :: rs, s0 => by
    rw [List.scanl_cons]
    cases rs with
    | nil => simp [List.scanl_nil]; exact hf s0 r
    | cons r2 rs2 =>
      rw [List.scanl_cons]
      refine List.Chain'.cons (hf s0 r) ?_
      have h := chain'_scanl R f hf (r2 :: rs2) (f s0 r)
      rwa [List.scanl_cons] at h

/-- No log-block index comes from a list of checkpoint-write events. -/
theorem logBlocks_map_storeFile (ws : List String) :
    logBlocks (ws.map Event.storeFile) = [] := by
  induction ws with
  | nil => rfl
  | cons w ws ih =>
    simp only [logBlocks, List.map_cons, List.filterMap_cons] at ih ⊢
    exact ih

/-- Checkpoint-write events contain no optimizer step. -/
theorem count_optim_map_storeFile (ws : List String) :
    (ws.map Event.storeFile).count Event.optimStep = 0 := by
  rw [List.count_eq_zero]
  simp

/-- Each loop iteration performs exactly one optimizer step. -/
theorem iterEvents_count_optim (cfg : TrainCfg) (metrics : ℕ → ℚ × ℚ)
    (i : ℕ) (s : BestState) :
    (iterEvents cfg metrics i s).1.count Event.optimStep = 1 := by
  unfold iterEvents
  dsimp only
  split_ifs <;>
    simp [List.count_cons, List.count_append, count_optim_map_storeFile]

/-- A loop iteration appends one validation log block exactly when the
secondary counter is a multiple of the validation interval. -/
theorem iterEvents_logBlocks (cfg : TrainCfg) (metrics : ℕ → ℚ × ℚ)
    (i : ℕ) (s : BestState) :
    logBlocks (iterEvents cfg metrics i s).1 =
      if i % cfg.validation_interval_steps = 0 then [i] else [] := by
  unfold iterEvents
  dsimp only
  split_ifs <;>
    simp [logBlocks, List.filterMap_cons, List.filterMap_append]

/-- Every checkpoint a loop iteration writes is a best-metric file or the
numbered snapshot of that iteration. -/
theorem iterEvents_storeFile_mem (cfg : TrainCfg) (metrics : ℕ → ℚ × ℚ)
    (i : ℕ) (s : BestState) (name : String) :
    Event.storeFile name ∈ (iterEvents cfg metrics i s).1 →
    name = "best_accuracy.pth" ∨ name = "best_norm_ed.pth" ∨
      ((i + 1) % 100000 = 0 ∧ name = iterFileName (i + 1)) := by
  intro hm
  unfold iterEvents at hm
  set ws := (validationRound s (metrics i).1 (metrics i).2).2 with hws
  have hsub : ∀ x, x ∈ ws → x = "best_accuracy.pth" ∨ x = "best_norm_ed.pth" := by
    intro x hx
    rw [hws] at hx
    exact validationRound_writes_subset _ _ _ x hx
  dsimp only at hm
  split_ifs at hm with h1 h2 <;>
    simp only [List.mem_cons, List.mem_append, List.mem_map, List.mem_singleton,
      List.not_mem_nil, or_false, false_or, Event.storeFile.injEq,
      reduceCtorEq] at hm
  · rcases hm with ⟨w, hw, rfl⟩ | rfl
    · exact (hsub _ hw).imp id Or.inl
    · exact Or.inr (Or.inr ⟨h2, rfl⟩)
  · rcases hm with ⟨w, hw, rfl⟩
    exact (hsub _ hw).imp id Or.inl
  · subst hm
    exact Or.inr (Or.inr ⟨‹(i + 1) % 100000 = 0›, rfl⟩)

/-- The numbered snapshot of an iteration is written exactly when the step
count after the iteration is a multiple of 100000. -/
theorem iterEvents_iterSave_iff (cfg : TrainCfg) (metrics : ℕ → ℚ × ℚ)
    (i : ℕ) (s : BestState) :
    Event.storeFile (iterFileName (i + 1)) ∈ (iterEvents cfg metrics i s).1 ↔
      (i + 1) % 100000 = 0 := by
  constructor
  · intro hm
    rcases iterEvents_storeFile_mem cfg metrics i s _ hm with h | h | ⟨hmod, _⟩
    · exact absurd h (iterFileName_ne_best_accuracy _)
    · exact absurd h (iterFileName_ne_best_norm_ed _)
    · exact hmod
  · intro hmod
    unfold iterEvents
    dsimp only
    split_ifs <;> simp [hmod]

theorem storeFile_injective : Function.Injective Event.storeFile := by
  intro a b h
  injection h

/-- Each best-metric checkpoint file is written at most once per iteration,
and only on iterations that run a validation. -/
theorem iterEvents_count_best (cfg : TrainCfg) (metrics : ℕ → ℚ × ℚ)
    (i : ℕ) (s : BestState) (x : String)
    (hx : x = "best_accuracy.pth" ∨ x = "best_norm_ed.pth") :
    (iterEvents cfg metrics i s).1.count (Event.storeFile x) ≤
      if i % cfg.validation_interval_steps = 0 then 1 else 0 := by
  unfold iterEvents
  set ws := (validationRound s (metrics i).1 (metrics i).2).2 with hws
  have hcnt : ws.count x ≤ 1 := by
    rw [hws]
    exact validationRound_writes_count _ _ _ x
  have hne : iterFileName (i + 1) ≠ x := by
    rcases hx with rfl | rfl
    · exact iterFileName_ne_best_accuracy _
    · exact iterFileName_ne_best_norm_ed _
  dsimp only
  split_ifs with h1 h2 <;>
    simp [List.count_cons, List.count_append, List.count_singleton,
      List.count_map_of_injective _ Event.storeFile storeFile_injective,
      hne, hcnt, Function.Injective.eq_iff storeFile_injective]

/-- On an iteration not hitting the 100000-step boundary, no numbered
snapshot of any index is written. -/
theorem iterEvents_no_iterSave (cfg : TrainCfg) (metrics : ℕ → ℚ × ℚ)
    (i : ℕ) (s : BestState) (n : ℕ) (h : (i + 1) % 100000 ≠ 0) :
    Event.storeFile (iterFileName n) ∉ (iterEvents cfg metrics i s).1 := by
  intro hm
  rcases iterEvents_storeFile_mem cfg metrics i s _ hm with hb | hb | ⟨hmod, _⟩
  · exact absurd hb (iterFileName_ne_best_accuracy _)
  · exact absurd hb (iterFileName_ne_best_norm_ed _)
  · exact h hmod

/-- Unfolding of the loop body when the early-exit branch is not taken. -/
theorem trainLoopAux_succ_ne (cfg : TrainCfg) (metrics : ℕ → ℚ × ℚ)
    (r i : ℕ) (s : BestState) (h : i ≠ cfg.max_train_steps) :
    trainLoopAux cfg metrics (r + 1) i s =
      ((iterEvents cfg metrics i s).1 ++
        (trainLoopAux cfg metrics r (i + 1) (iterEvents cfg metrics i s).2).1,
       (trainLoopAux cfg metrics r (i + 1) (iterEvents cfg metrics i s).2).2) := by
  conv_lhs => rw [trainLoopAux]
  dsimp only
  rw [if_neg h]

/-- Unfolding of the loop body when the early-exit branch fires: the trace
ends with the completion log and the run outcome is a process exit. -/
theorem trainLoopAux_succ_exit (cfg : TrainCfg) (metrics : ℕ → ℚ × ℚ)
    (r i : ℕ) (s : BestState) (h : i = cfg.max_train_steps) :
    trainLoopAux cfg metrics (r + 1) i s =
      ((iterEvents cfg metrics i s).1 ++ [Event.exitLog], Outcome.processExit) := by
  conv_lhs => rw [trainLoopAux]
  dsimp only
  rw [if_pos h]

/-- When the step budget stays within the early-exit bound, the loop returns
normally. -/
theorem trainLoopAux_normal (cfg : TrainCfg) (metrics : ℕ → ℚ × ℚ) :
    ∀ (r i : ℕ) (s : BestState), i + r ≤ cfg.max_train_steps →
      (trainLoopAux cfg metrics r i s).2 = Outcome.normalReturn
  | 0, _, _, _ => rfl
  | r + 1, i, s, h => by
    rw [trainLoopAux_succ_ne cfg metrics r i s (by omega)]
    exact trainLoopAux_normal cfg metrics r (i + 1) _ (by omega)

/-- When the step budget stays within the early-exit bound, the loop performs
exactly one optimizer step per remaining budgeted step. -/
theorem trainLoopAux_count_optim (cfg : TrainCfg) (metrics : ℕ → ℚ × ℚ) :
    ∀ (r i : ℕ) (s : BestState), i + r ≤ cfg.max_train_steps →
      (trainLoopAux cfg metrics r i s).1.count Event.optimStep = r
  | 0, _, _, _ => rfl
  | r + 1, i, s, h => by
    rw [trainLoopAux_succ_ne cfg metrics r i s (by omega)]
    dsimp only
    rw [List.count_append, iterEvents_count_optim,
      trainLoopAux_count_optim cfg metrics r (i + 1) _ (by omega)]
    omega

/-- When the step budget stays within the early-exit bound, the validation
log blocks are exactly those at counters divisible by the interval. -/
theorem trainLoopAux_logBlocks (cfg : TrainCfg) (metrics : ℕ → ℚ × ℚ) :
    ∀ (r i : ℕ) (s : BestState), i + r ≤ cfg.max_train_steps →
      logBlocks (trainLoopAux cfg metrics r i s).1 =
        (List.range' i r).filter
          (fun j => j % cfg.validation_interval_steps == 0)
  | 0, _, _, _ => rfl
  | r + 1, i, s, h => by
    rw [trainLoopAux_succ_ne cfg metrics r i s (by omega)]
    dsimp only
    rw [logBlocks, List.filterMap_append, List.range'_succ, List.filter_cons]
    rw [← logBlocks, ← logBlocks, iterEvents_logBlocks,
      trainLoopAux_logBlocks cfg metrics r (i + 1) _ (by omega)]
    by_cases hc : i % cfg.validation_interval_steps = 0
    · simp [hc]
    · simp [hc]

/-- Every checkpoint a (possibly early-exiting) run writes is one of the two
best-metric files or a 100000-boundary numbered snapshot of an iteration that
actually ran. -/
theorem trainLoopAux_storeFile_mem (cfg : TrainCfg) (metrics : ℕ → ℚ × ℚ) :
    ∀ (r i : ℕ) (s : BestState) (name : String),
      Event.storeFile name ∈ (trainLoopAux cfg metrics r i s).1 →
      name = "best_accuracy.pth" ∨ name = "best_norm_ed.pth" ∨
        ∃ j, i ≤ j ∧ j < i + r ∧ (j + 1) % 100000 = 0 ∧ name = iterFileName (j + 1)
  | 0, _, _, name, h => absurd h (List.not_mem_nil _)
  | r + 1, i, s, name, h => by
    by_cases hi : i = cfg.max_train_steps
    · rw [trainLoopAux_succ_exit cfg metrics r i s hi] at h
      dsimp only at h
      rcases List.mem_append.mp h with h1 | h1
      · rcases iterEvents_storeFile_mem cfg metrics i s name h1 with hb | hb | ⟨hm, he⟩
        · exact Or.inl hb
        · exact Or.inr (Or.inl hb)
        · exact Or.inr (Or.inr ⟨i, le_rfl, by omega, hm, he⟩)
      · simp at h1
    · rw [trainLoopAux_succ_ne cfg metrics r i s hi] at h
      dsimp only at h
      rcases List.mem_append.mp h with h1 | h1
      · rcases iterEvents_storeFile_mem cfg metrics i s name h1 with hb | hb | ⟨hm, he⟩
        · exact Or.inl hb
        · exact Or.inr (Or.inl hb)
        · exact Or.inr (Or.inr ⟨i, le_rfl, by omega, hm, he⟩)
      · rcases trainLoopAux_storeFile_mem cfg metrics r (i + 1) _ name h1 with
          hb | hb | ⟨j, hj1, hj2, hj3, hj4⟩
        · exact Or.inl hb
        · exact Or.inr (Or.inl hb)
        · exact Or.inr (Or.inr ⟨j, by omega, by omega, hj3, hj4⟩)

/-- Each best-metric checkpoint file is written at most once per validation
round over a whole (possibly early-exiting) run. -/
theorem trainLoopAux_count_best (cfg : TrainCfg) (metrics : ℕ → ℚ × ℚ) :
    ∀ (r i : ℕ) (s : BestState) (x : String),
      x = "best_accuracy.pth" ∨ x = "best_norm_ed.pth" →
      (trainLoopAux cfg metrics r i s).1.count (Event.storeFile x) ≤
        ((List.range' i r).filter
          (fun j => j % cfg.validation_interval_steps == 0)).length
  | 0, _, _, _, _ => Nat.le_refl 0
  | r + 1, i, s, x, hx => by
    have hiter := iterEvents_count_best cfg metrics i s x hx
    have hlen : (if i % cfg.validation_interval_steps = 0 then 1 else 0) +
        ((List.range' (i + 1) r).filter
          (fun j => j % cfg.validation_interval_steps == 0)).length =
        ((List.range' i (r + 1)).filter
          (fun j => j % cfg.validation_interval_steps == 0)).length := by
      rw [List.range'_succ, List.filter_cons]
      by_cases hc : i % cfg.validation_interval_steps = 0
      · simp [hc]
        omega
      · simp [hc]
    by_cases hi : i = cfg.max_train_steps
    · rw [trainLoopAux_succ_exit cfg metrics r i s hi]
      dsimp only
      rw [List.count_append]
      have : ([Event.exitLog].count (Event.storeFile x)) = 0 := by simp
      omega
    · rw [trainLoopAux_succ_ne cfg metrics r i s hi]
      dsimp only
      rw [List.count_append]
      have hrec := trainLoopAux_count_best cfg metrics r (i + 1)
        (iterEvents cfg metrics i s).2 x hx
      omega

/-- If the secondary counter can still reach `max_train_steps` within the
remaining budget, the run ends in a process exit. -/
theorem trainLoopAux_reaches_exit (cfg : TrainCfg) (metrics : ℕ → ℚ × ℚ) :
    ∀ (r i : ℕ) (s : BestState), i ≤ cfg.max_train_steps →
      cfg.max_train_steps - i < r →
      (trainLoopAux cfg metrics r i s).2 = Outcome.processExit
  | 0, i, _, h1, h2 => absurd h2 (by omega)
  | r + 1, i, s, h1, h2 => by
    by_cases hi : i = cfg.max_train_steps
    · rw [trainLoopAux_succ_exit cfg metrics r i s hi]
    · rw [trainLoopAux_succ_ne cfg metrics r i s hi]
      exact trainLoopAux_reaches_exit cfg metrics r (i + 1) _ (by omega) (by omega)

/-- The stdout of `predict_directory` has three banner lines per batch plus
one prediction line per sample, when the model returns one prediction per
image of each batch. -/
theorem predict_stdout_len_aux :
    ∀ (batches : List ServBatch),
      (∀ b ∈ batches, b.preds.length = b.ids.length) →
      (batches.flatMap (fun b =>
        [String.mk (List.replicate 80 '-'),
         "image_path\tpredicted_labels",
         String.mk (List.replicate 80 '-')]
        ++ (b.ids.zip b.preds).map (fun p => p.1 ++ "\t" ++ p.2))).length =
      3 * batches.length + (batches.map (fun b => b.ids.length)).sum
  | [], _ => rfl
  | b :: bs, h => by
    have hb : b.preds.length = b.ids.length := h b (List.mem_cons_self b bs)
    have hbs := predict_stdout_len_aux bs
      (fun x hx => h x (List.mem_cons_of_mem b hx))
    simp only [List.flatMap_cons, List.length_append, List.map_cons,
      List.sum_cons, List.length_cons, List.length_map, List.length_zip, hb,
      Nat.min_self, List.length_nil]
    rw [hbs]
    omega

theorem predict_directory_stdout_length (batches : List ServBatch)
    (in_path out_path : String)
    (h : ∀ b ∈ batches, b.preds.length = b.ids.length) :
    (predict_directory batches in_path out_path).stdoutLines.length =
      3 * batches.length + (batches.map (fun b => b.ids.length)).sum :=
  predict_stdout_len_aux batches h

/-! ## Claims -/

/-- C1: Across the sequence of validation rounds of a run of `train`, the
tracked `best_accuracy` is non-decreasing and `best_norm_ed` is
non-increasing step over step, and each round stores `best_accuracy.pth`
iff its accuracy strictly exceeds the best seen so far, and
`best_norm_ed.pth` iff its normalized edit distance is strictly below the
best seen so far. -/
theorem best_tracking_monotone_and_write_iff (rounds : List (ℚ × ℚ))
    (s : BestState) (acc ned : ℚ) :
    List.Chain' (fun a b => a.best_accuracy ≤ b.best_accuracy ∧
        b.best_norm_ed ≤ a.best_norm_ed) (bestStates rounds) ∧
    s.best_accuracy ≤ ((validationRound s acc ned).1).best_accuracy ∧
    ((validationRound s acc ned).1).best_norm_ed ≤ s.best_norm_ed ∧
    ("best_accuracy.pth" ∈ (validationRound s acc ned).2 ↔
      s.best_accuracy < acc) ∧
    ("best_norm_ed.pth" ∈ (validationRound s acc ned).2 ↔
      ned < s.best_norm_ed) :=
  ⟨chain'_scanl _ _
      (fun t r => ⟨validationRound_acc_mono t r.1 r.2,
                   validationRound_ned_mono t r.1 r.2⟩) rounds initBest,
   validationRound_acc_mono s acc ned,
   validationRound_ned_mono s acc ned,
   validationRound_acc_write_iff s acc ned,
   validationRound_ned_write_iff s acc ned⟩

/-- C2: On an empty validation set, `validation` raises the unguarded
`ZeroDivisionError` from `accuracy = n_correct / float(length_of_data) * 100`
instead of failing fast with a descriptive "empty validation set" error. -/
theorem validation_empty_set_zero_division :
    validation [] = Except.error PyErr.zeroDivisionError := rfl

/-- C3: The main loop bound is an exclusive check of `current_step` against
`total_num_steps` (zero remaining budget runs no iteration, and a budget that
keeps the secondary counter below `max_train_steps` runs exactly that many
optimizer steps and returns); the early-exit branch fires exactly at
`i == max_train_steps`, logging completion and ending the whole run in a
process-level exit, never returning normally from that branch. -/
theorem train_loop_bounds_and_exit (cfg : TrainCfg) (metrics : ℕ → ℚ × ℚ)
    (r i : ℕ) (s : BestState) :
    trainLoopAux cfg metrics 0 i s = ([], Outcome.normalReturn) ∧
    (i = cfg.max_train_steps →
      trainLoopAux cfg metrics (r + 1) i s =
        ((iterEvents cfg metrics i s).1 ++ [Event.exitLog],
         Outcome.processExit)) ∧
    (i ≤ cfg.max_train_steps → cfg.max_train_steps - i < r →
      (trainLoopAux cfg metrics r i s).2 = Outcome.processExit) ∧
    (i + r ≤ cfg.max_train_steps →
      (trainLoopAux cfg metrics r i s).2 = Outcome.normalReturn ∧
      (trainLoopAux cfg metrics r i s).1.count Event.optimStep = r) :=
  ⟨rfl,
   fun h => trainLoopAux_succ_exit cfg metrics r i s h,
   fun h1 h2 => trainLoopAux_reaches_exit cfg metrics r i s h1 h2,
   fun h => ⟨trainLoopAux_normal cfg metrics r i s h,
             trainLoopAux_count_optim cfg metrics r i s h⟩⟩

/-- Witness for C3 at concrete inputs: with `max_train_steps = 3` and budget
5 the run process-exits; with `max_train_steps = 10` and budget 10 it
returns normally after 10 optimizer steps. -/
theorem train_loop_bounds_and_exit_witness :
    (trainLoopAux ⟨3, 5⟩ (fun _ => (50, 3)) 5 3 initBest).2 =
      Outcome.processExit ∧
    (trainLoopAux ⟨10, 5⟩ (fun _ => (50, 3)) 10 0 initBest).2 =
      Outcome.normalReturn ∧
    (trainLoopAux ⟨10, 5⟩ (fun _ => (50, 3)) 10 0 initBest).1.count
      Event.optimStep = 10 :=
  ⟨(train_loop_bounds_and_exit ⟨3, 5⟩ (fun _ => (50, 3)) 5 3 initBest).2.2.1
      (by decide) (by decide),
   ((train_loop_bounds_and_exit ⟨10, 5⟩ (fun _ => (50, 3)) 10 0 initBest).2.2.2
      (by decide)).1,
   ((train_loop_bounds_and_exit ⟨10, 5⟩ (fun _ => (50, 3)) 10 0 initBest).2.2.2
      (by decide)).2⟩

/-- C4 counterexample: with `num_max_steps = 0` both budgets are given, yet
the resolved budget is the epoch-derived 10, not the supplied 0 — Python's
`if num_max_steps:` treats 0 as falsy, so the overwrite is conditional on
truthiness, not on being provided. -/
theorem step_budget_zero_not_used :
    totalNumSteps 5 (some 0) (some 2) = 10 ∧
    totalNumSteps 5 (some 0) (some 2) ≠ 0 := by
  constructor
  · rfl
  · decide

/-- C4 (amended): whenever `num_max_steps` is given and truthy (non-zero),
the epoch-derived budget is overwritten and the loop budget equals
`num_max_steps`. -/
theorem step_budget_overrides_when_truthy (num_steps_per_epoch m : Int)
    (num_epoch : Option Int) (hm : m ≠ 0) :
    totalNumSteps num_steps_per_epoch (some m) num_epoch = m := by
  unfold totalNumSteps
  simp [pyTruthyOptInt, hm]

/-- Witness for the amended C4: a truthy step budget of 7 wins over an
epoch-derived budget of 10. -/
theorem step_budget_overrides_when_truthy_witness :
    totalNumSteps 5 (some 7) (some 2) = 7 :=
  step_budget_overrides_when_truthy 5 7 (some 2) (by decide)

/-- C5: For every combination of `num_max_steps` and `num_epoch` (both
`None`, both given, or mixed), the expression asserted at the start of
`train` is a nonempty tuple and hence truthy, so the assert never fails. -/
theorem train_assert_always_passes (num_max_steps num_epoch : Option Int) :
    pyTruthy (trainAssertExpr num_max_steps num_epoch) = true := rfl

/-- C6: The weight-init pass skips parameters whose name contains the
`localization_fc2` marker, constant-fills 0.0 for names containing `bias`,
Kaiming-normal-fills names containing `weight`, falls back to constant 1.0
when Kaiming raises on a sub-2-dimensional weight, and leaves every other
parameter at its framework default. -/
theorem weight_init_policy (name : String) (ndim : ℕ) :
    (strContains name "localization_fc2" = true →
      initParam name ndim = InitResult.untouched) ∧
    (strContains name "localization_fc2" = false →
      strContains name "bias" = true →
      initParam name ndim = InitResult.constFill 0) ∧
    (strContains name "localization_fc2" = false →
      strContains name "bias" = false →
      strContains name "weight" = true → ndim < 2 →
      initParam name ndim = InitResult.constFill 1) ∧
    (strContains name "localization_fc2" = false →
      strContains name "bias" = false →
      strContains name "weight" = true → 2 ≤ ndim →
      initParam name ndim = InitResult.kaimingNormal) ∧
    (strContains name "localization_fc2" = false →
      strContains name "bias" = false →
      strContains name "weight" = false →
      initParam name ndim = InitResult.frameworkDefault) := by
  refine ⟨fun h1 => ?_, fun h1 h2 => ?_, fun h1 h2 h3 h4 => ?_,
          fun h1 h2 h3 h4 => ?_, fun h1 h2 h3 => ?_⟩
  · simp [initParam, h1]
  · simp [initParam, h1, h2]
  · simp [initParam, kaimingRaises, h1, h2, h3, h4]
  · have h5 : ¬ ndim < 2 := by omega
    simp [initParam, kaimingRaises, h1, h2, h3, h5]
  · simp [initParam, h1, h2, h3]

/-- Witness for C6: a 1-D batchnorm-style weight ends constant 1.0, and a
skip-marked parameter is untouched. -/
theorem weight_init_policy_witness :
    initParam "bn1.weight" 1 = InitResult.constFill 1 ∧
    initParam "localization_fc2.weight" 1 = InitResult.untouched :=
  ⟨(weight_init_policy "bn1.weight" 1).2.2.1
      (by decide) (by decide) (by decide) (by decide),
   (weight_init_policy "localization_fc2.weight" 1).1 (by decide)⟩

/-- C7: `load_model` always wraps the base model in the device-bound
parallel adapter; when `path` exists it loads parameter state only from the
configured stored-model path; when `path` does not exist it returns the
freshly wrapped model without error. -/
theorem load_model_spec (fs : List String) (stored_model path : String) :
    (path ∉ fs → load_model fs stored_model path =
      Except.ok { parallelWrapped := true, onDevice := true, loaded := none }) ∧
    (path ∈ fs → stored_model ∈ fs → load_model fs stored_model path =
      Except.ok { parallelWrapped := true, onDevice := true,
                  loaded := some (stored_model, LoadKind.stateDictOnly) }) := by
  constructor
  · intro h
    simp [load_model, h]
  · intro h1 h2
    simp [load_model, h1, h2]

/-- Witness for C7: a missing checkpoint path falls back to fresh init, an
existing one loads state only. -/
theorem load_model_spec_witness :
    load_model [] "m.pth" "m.pth" =
      Except.ok { parallelWrapped := true, onDevice := true, loaded := none } ∧
    load_model ["m.pth"] "m.pth" "m.pth" =
      Except.ok { parallelWrapped := true, onDevice := true,
                  loaded := some ("m.pth", LoadKind.stateDictOnly) } :=
  ⟨(load_model_spec [] "m.pth" "m.pth").1 (by simp),
   (load_model_spec ["m.pth"] "m.pth" "m.pth").2 (by simp) (by simp)⟩

/-- C8: With constructor `max_train_steps = 10` and
`validation_interval_steps = 5`, a 20-sample dataset at batch size 4 and a
step budget of 10, the run performs exactly 10 optimizer steps, logs
validation blocks exactly at secondary counters 0 and 5, and every
checkpoint it writes is one of the two best-metric files, each written at
most twice. -/
theorem scenario_ten_steps_two_validations (metrics : ℕ → ℚ × ℚ) :
    (train ⟨10, 5⟩ metrics 20 4 (some 10) none).1.count Event.optimStep = 10 ∧
    logBlocks (train ⟨10, 5⟩ metrics 20 4 (some 10) none).1 = [0, 5] ∧
    (∀ name, Event.storeFile name ∈ (train ⟨10, 5⟩ metrics 20 4 (some 10) none).1 →
      name = "best_accuracy.pth" ∨ name = "best_norm_ed.pth") ∧
    (train ⟨10, 5⟩ metrics 20 4 (some 10) none).1.count
      (Event.storeFile "best_accuracy.pth") ≤ 2 ∧
    (train ⟨10, 5⟩ metrics 20 4 (some 10) none).1.count
      (Event.storeFile "best_norm_ed.pth") ≤ 2 := by
  have heq : train ⟨10, 5⟩ metrics 20 4 (some 10) none =
      trainLoopAux ⟨10, 5⟩ metrics 10 0 initBest := rfl
  rw [heq]
  refine ⟨trainLoopAux_count_optim _ metrics 10 0 initBest (by decide), ?_, ?_, ?_, ?_⟩
  · rw [trainLoopAux_logBlocks _ metrics 10 0 initBest (by decide)]
    decide
  · intro name hm
    rcases trainLoopAux_storeFile_mem _ metrics 10 0 initBest name hm with
      hb | hb | ⟨j, hj1, hj2, hj3, _⟩
    · exact Or.inl hb
    · exact Or.inr hb
    · exact absurd hj3 (by omega)
  · have h := trainLoopAux_count_best ⟨10, 5⟩ metrics 10 0 initBest
      "best_accuracy.pth" (Or.inl rfl)
    calc (trainLoopAux ⟨10, 5⟩ metrics 10 0 initBest).1.count
          (Event.storeFile "best_accuracy.pth") ≤ _ := h
      _ ≤ 2 := by decide
  · have h := trainLoopAux_count_best ⟨10, 5⟩ metrics 10 0 initBest
      "best_norm_ed.pth" (Or.inr rfl)
    calc (trainLoopAux ⟨10, 5⟩ metrics 10 0 initBest).1.count
          (Event.storeFile "best_norm_ed.pth") ≤ _ := h
      _ ≤ 2 := by decide

/-- C9: A loop iteration writes the numbered snapshot `iter_<i+1>.pth`
exactly when `i + 1` is a multiple of 100000, independently of the metric
outcomes and the best-tracking state; on every other iteration no numbered
snapshot of any index is written. -/
theorem iter_snapshot_policy (cfg : TrainCfg) (metrics : ℕ → ℚ × ℚ)
    (i : ℕ) (s : BestState) :
    (Event.storeFile (iterFileName (i + 1)) ∈ (iterEvents cfg metrics i s).1 ↔
      (i + 1) % 100000 = 0) ∧
    ((i + 1) % 100000 ≠ 0 →
      ∀ n, Event.storeFile (iterFileName n) ∉ (iterEvents cfg metrics i s).1) :=
  ⟨iterEvents_iterSave_iff cfg metrics i s,
   fun h n => iterEvents_no_iterSave cfg metrics i s n h⟩

/-- Witness for C9: at counter 99999 the snapshot `iter_100000.pth` is
written; at counter 0 no numbered snapshot is written. -/
theorem iter_snapshot_policy_witness :
    Event.storeFile (iterFileName 100000) ∈
      (iterEvents ⟨10, 5⟩ (fun _ => (50, 3)) 99999 initBest).1 ∧
    Event.storeFile (iterFileName 1) ∉
      (iterEvents ⟨10, 5⟩ (fun _ => (50, 3)) 0 initBest).1 :=
  ⟨(iter_snapshot_policy ⟨10, 5⟩ (fun _ => (50, 3)) 99999 initBest).1.mpr
      (by decide),
   (iter_snapshot_policy ⟨10, 5⟩ (fun _ => (50, 3)) 0 initBest).2 (by decide) 1⟩

/-- C10: `predict_directory` never uses `out_path` — its behaviour is
identical for any two values of it — creates or modifies no file, returns
`None`, and emits exactly one tab-separated identifier/prediction line per
sample (plus the fixed three banner lines per batch). -/
theorem predict_directory_frame (batches : List ServBatch)
    (in_path out_path other_out_path : String) :
    predict_directory batches in_path out_path =
      predict_directory batches in_path other_out_path ∧
    (predict_directory batches in_path out_path).filesWritten = [] ∧
    (predict_directory batches in_path out_path).retVal = PyVal.none_ ∧
    ((∀ b ∈ batches, b.preds.length = b.ids.length) →
      (predict_directory batches in_path out_path).stdoutLines.length =
        3 * batches.length + (batches.map (fun b => b.ids.length)).sum) :=
  ⟨rfl, rfl, rfl,
   fun h => predict_directory_stdout_length batches in_path out_path h⟩

/-- Witness for C10 on a concrete two-sample batch. -/
theorem predict_directory_frame_witness :
    (predict_directory [⟨["a", "b"], ["x", "y"]⟩] "in" "out").stdoutLines.length =
      3 * 1 + 2 ∧
    (predict_directory [⟨["a", "b"], ["x", "y"]⟩] "in" "out").filesWritten = [] :=
  ⟨by
    have h := (predict_directory_frame [⟨["a", "b"], ["x", "y"]⟩] "in" "out" "o2").2.2.2
      (by decide)
    simpa using h,
   (predict_directory_frame [⟨["a", "b"], ["x", "y"]⟩] "in" "out" "o2").2.1⟩

end TorchExecutor
